import Mathlib

/-!
Verification of the IFS WhatsApp voice-agent glue code.

Shallow embedding of the repository's four modules:
* `knowledge.py` — `load_knowledge`: concatenate markdown files into one string;
* `hooks.py` — `send_call_summary`: best-effort POST of a call summary to n8n;
* `bot.py` — `run_bot` (pipeline assembly, system prompt) and the
  `on_client_disconnected` handler;
* `server.py` — `handle_webhook`: the POST `/` webhook-ingestion endpoint.

Filesystem, HTTP and the external WhatsApp client library are modelled as
explicit oracle parameters; async procedures are embedded as pure functions
returning their ordered effect traces. String primitives (`str.strip`,
`str.upper`, code-point comparison) are re-implemented over `List Char` so
that every definition evaluates inside the kernel.
-/

namespace IfsVoiceAgent

/-! ### String primitives (Python semantics, kernel-computable) -/

/-- Python `str.strip()`: drop leading and trailing whitespace. -/
def pyStrip (s : String) : String :=
  ⟨((s.data.dropWhile Char.isWhitespace).reverse.dropWhile Char.isWhitespace).reverse⟩

/-- Python `str.upper()` (ASCII part, matching `Char.toUpper`). -/
def pyUpper (s : String) : String :=
  ⟨s.data.map Char.toUpper⟩

/-- Python string `<=`: lexicographic comparison of code points. -/
def charListLe : List Char → List Char → Bool
  | [], _ => true
  | _ :: _, [] => false
  | a :: as, b :: bs =>
    if a.toNat < b.toNat then true
    else if b.toNat < a.toNat then false
    else charListLe as bs

def pyLe (s t : String) : Prop := charListLe s.data t.data = true

instance : DecidableRel pyLe :=
  fun s t => inferInstanceAs (Decidable (charListLe s.data t.data = true))

lemma charListLe_total : ∀ x y : List Char, charListLe x y = true ∨ charListLe y x = true
  | [], _ => Or.inl rfl
  | _ :: _, [] => Or.inr rfl
  | a :: as, b :: bs => by
    rcases Nat.lt_trichotomy a.toNat b.toNat with h | h | h
    · left
      simp [charListLe, h]
    · have h1 : ¬ a.toNat < b.toNat := by omega
      have h2 : ¬ b.toNat < a.toNat := by omega
      rcases charListLe_total as bs with ih | ih
      · left
        simp [charListLe, h1, h2, ih]
      · right
        simp [charListLe, h1, h2, ih]
    · right
      simp [charListLe, h]

lemma charListLe_trans :
    ∀ x y z : List Char, charListLe x y = true → charListLe y z = true →
      charListLe x z = true
  | [], _, _, _, _ => rfl
  | _ :: _, [], _, h, _ => by simp [charListLe] at h
  | _ :: _, _ :: _, [], _, h => by simp [charListLe] at h
  | a :: as, b :: bs, c :: cs, h1, h2 => by
    by_cases hab : a.toNat < b.toNat
    · by_cases hbc : b.toNat < c.toNat
      · have : a.toNat < c.toNat := by omega
        simp [charListLe, this]
      · have hcb : ¬ c.toNat < b.toNat := by
          intro hlt
          simp [charListLe, hlt, Nat.lt_asymm hlt] at h2
        have : a.toNat < c.toNat := by omega
        simp [charListLe, this]
    · have hba : ¬ b.toNat < a.toNat := by
        intro hlt
        simp [charListLe, hab, hlt] at h1
      have hab' : a.toNat = b.toNat := by omega
      by_cases hbc : b.toNat < c.toNat
      · have : a.toNat < c.toNat := by omega
        simp [charListLe, this]
      · have hcb : ¬ c.toNat < b.toNat := by
          intro hlt
          simp [charListLe, hbc, hlt] at h2
        have h1' : charListLe as bs = true := by
          simpa [charListLe, hab, hba] using h1
        have h2' : charListLe bs cs = true := by
          simpa [charListLe, hbc, hcb] using h2
        have hac : ¬ a.toNat < c.toNat := by omega
        have hca : ¬ c.toNat < a.toNat := by omega
        simpa [charListLe, hac, hca] using charListLe_trans as bs cs h1' h2'

/-! ### knowledge.py -/

/-- One entry of the `knowledge/` directory listing, as seen by
`load_knowledge`: the file stem (name without the `.md` extension) and the
result of `read_text` — `none` when the read raises. -/
structure MdFile where
  stem : String
  content : Option String
deriving DecidableEq, Repr

/-- The full filename, the key `sorted(KNOWLEDGE_DIR.glob("*.md"))` sorts by
(all globbed paths share the directory prefix, so path order is filename
order). -/
def fileName (f : MdFile) : String := f.stem ++ ".md"

/-- The sort order used by `sorted(...)` on the glob results. -/
def fileLe (a b : MdFile) : Prop := pyLe (fileName a) (fileName b)

instance : DecidableRel fileLe :=
  fun a b => inferInstanceAs (Decidable (pyLe (fileName a) (fileName b)))

instance : IsTotal MdFile fileLe :=
  ⟨fun a b => charListLe_total (fileName a).data (fileName b).data⟩

instance : IsTrans MdFile fileLe :=
  ⟨fun a b c => charListLe_trans (fileName a).data (fileName b).data (fileName c).data⟩

/-- The body of the per-file loop of `load_knowledge`: `none` when the read
raises (`except` branch) or the stripped content is empty (falsy `content`),
otherwise the block appended to `documents`. -/
def readDoc (f : MdFile) : Option String :=
  match f.content with
  | none => none
  | some raw =>
    let content := pyStrip raw
    if content = "" then none
    else some ("--- " ++ pyUpper f.stem ++ " ---\n" ++ content)

/-- `knowledge.load_knowledge`. The directory is `none` when
`KNOWLEDGE_DIR.exists()` is false, otherwise the (unordered) listing of its
`*.md` files. The loop accumulates `documents` in sorted filename order; an
empty `documents` returns `""` early, otherwise the blocks are joined with
`"\n\n"`. -/
def load_knowledge : Option (List MdFile) → String
  | none => ""
  | some files =>
    let documents := (List.insertionSort fileLe files).foldl
      (fun acc f =>
        match readDoc f with
        | some d => acc ++ [d]
        | none => acc) []
    if documents = [] then "" else String.intercalate "\n\n" documents

/-- Spec-side contract of the loader (§4.1): for each markdown file in
filename-sorted order whose trimmed content is non-empty (files whose read
fails are skipped), an uppercase-filename header block followed by the trimmed
content, blocks joined by one blank line. -/
def specKnowledgeBlock (f : MdFile) : Option String :=
  match f.content with
  | none => none
  | some raw =>
    if pyStrip raw = "" then none
    else some ("--- " ++ pyUpper f.stem ++ " ---\n" ++ pyStrip raw)

/-- Spec-side contract of the whole loader on an existing directory. -/
def knowledgeSpec (files : List MdFile) : String :=
  String.intercalate "\n\n" ((List.insertionSort fileLe files).filterMap specKnowledgeBlock)

/-! Helper lemmas about the loader. -/

lemma foldl_append_eq_filterMap (g : MdFile → Option String) (l : List MdFile)
    (acc : List String) :
    l.foldl (fun acc f => match g f with | some d => acc ++ [d] | none => acc) acc
      = acc ++ l.filterMap g := by
  induction l generalizing acc with
  | nil => simp
  | cons x xs ih =>
    cases hx : g x with
    | none => simp [List.foldl_cons, hx, ih, List.filterMap_cons]
    | some d => simp [List.foldl_cons, hx, ih, List.filterMap_cons]

lemma readDoc_eq_specKnowledgeBlock : readDoc = specKnowledgeBlock := by
  funext f
  cases f with
  | mk stem content =>
    cases content <;> simp [readDoc, specKnowledgeBlock]

/-- The loader on an existing directory, in closed form. -/
lemma load_knowledge_some (files : List MdFile) :
    load_knowledge (some files)
      = String.intercalate "\n\n" ((List.insertionSort fileLe files).filterMap readDoc) := by
  simp only [load_knowledge]
  rw [foldl_append_eq_filterMap, List.nil_append]
  split
  · next h => rw [h]; rfl
  · rfl

/-! ### Claims C2 and C7 -/

/-- C2: for every directory of markdown files, the loader returns exactly the
spec's string: one block per file with non-empty trimmed content (unreadable
files skipped), in filename-sorted order, each block an uppercase-filename
header followed by the trimmed content, consecutive blocks joined by exactly
one blank line; in particular for two non-empty files `a.md`, `b.md` both
headers appear in sorted order separated by a blank line. -/
theorem load_knowledge_matches_spec :
    (∀ files : List MdFile, load_knowledge (some files) = knowledgeSpec files) ∧
      load_knowledge (some [⟨"b", some "Beta"⟩, ⟨"a", some "Alpha"⟩])
        = "--- A ---\nAlpha\n\n--- B ---\nBeta" := by
  constructor
  · intro files
    rw [load_knowledge_some, knowledgeSpec, readDoc_eq_specKnowledgeBlock]
  · decide

/-- C7: a missing knowledge directory yields the empty string, and so does a
directory in which every file is unreadable or has empty trimmed content;
neither case raises (the embedding is total). -/
theorem load_knowledge_empty_cases :
    load_knowledge none = "" ∧
      ∀ files : List MdFile, (∀ f ∈ files, readDoc f = none) →
        load_knowledge (some files) = "" := by
  constructor
  · rfl
  · intro files h
    rw [load_knowledge_some]
    have hall : ∀ f ∈ List.insertionSort fileLe files, readDoc f = none := by
      intro f hf
      exact h f ((List.perm_insertionSort fileLe files).mem_iff.mp hf)
    rw [List.filterMap_eq_nil_iff.mpr hall]
    rfl

/-- Witness for C7: a directory holding one unreadable file and one
whitespace-only file loads to the empty string. -/
theorem load_knowledge_empty_cases_witness :
    load_knowledge (some [⟨"a", none⟩, ⟨"b", some "  \n "⟩]) = "" :=
  load_knowledge_empty_cases.2 [⟨"a", none⟩, ⟨"b", some "  \n "⟩] (by decide)

/-! ### Claim C8: a skipped file leaves the rest of the output unchanged -/

/-- Inserting `x` into a sorted list that decomposes around a marked element
`f` keeps the decomposition: the two insertions (with and without `f`) agree
outside `f`. -/
lemma orderedInsert_decomp (x f : MdFile) :
    ∀ s1 s2 : List MdFile, List.Sorted fileLe (s1 ++ f :: s2) →
      ∃ t1 t2 : List MdFile,
        List.orderedInsert fileLe x (s1 ++ f :: s2) = t1 ++ f :: t2 ∧
          List.orderedInsert fileLe x (s1 ++ s2) = t1 ++ t2
  | [], s2, hs => by
    by_cases hxf : fileLe x f
    · refine ⟨[x], s2, ?_, ?_⟩
      · simpa [List.orderedInsert] using List.orderedInsert_of_le fileLe s2 hxf
      · cases s2 with
        | nil => simp [List.orderedInsert]
        | cons y ys =>
          have hs' : List.Sorted fileLe (f :: y :: ys) := hs
          have hfy : fileLe f y := List.rel_of_sorted_cons hs' y (by simp)
          have hxy : fileLe x y := Trans.trans hxf hfy
          simpa using List.orderedInsert_of_le fileLe ys hxy
    · exact ⟨[], List.orderedInsert fileLe x s2, by simp [List.orderedInsert, hxf], by simp⟩
  | y :: s1', s2, hs => by
    by_cases hxy : fileLe x y
    · refine ⟨x :: y :: s1', s2, ?_, ?_⟩
      · simpa using List.orderedInsert_of_le fileLe (s1' ++ f :: s2) hxy
      · simpa using List.orderedInsert_of_le fileLe (s1' ++ s2) hxy
    · obtain ⟨t1, t2, h1, h2⟩ :=
        orderedInsert_decomp x f s1' s2 (by simpa using hs.of_cons)
      refine ⟨y :: t1, t2, ?_, ?_⟩
      · simp [List.orderedInsert, hxy, h1]
      · simp [List.orderedInsert, hxy, h2]

/-- Sorting a list with a marked element `f` decomposes as sorting the list
without `f` plus `f` inserted at one position. -/
lemma insertionSort_decomp (f : MdFile) :
    ∀ l1 l2 : List MdFile,
      ∃ s1 s2 : List MdFile,
        List.insertionSort fileLe (l1 ++ f :: l2) = s1 ++ f :: s2 ∧
          List.insertionSort fileLe (l1 ++ l2) = s1 ++ s2
  | [], l2 => by
    refine ⟨(List.insertionSort fileLe l2).takeWhile (fun b => ¬ fileLe f b),
            (List.insertionSort fileLe l2).dropWhile (fun b => ¬ fileLe f b), ?_, ?_⟩
    · simpa [List.insertionSort] using
        List.orderedInsert_eq_take_drop fileLe f (List.insertionSort fileLe l2)
    · simp [List.takeWhile_append_dropWhile]
  | x :: l1', l2 => by
    obtain ⟨s1, s2, h1, h2⟩ := insertionSort_decomp f l1' l2
    have hsorted : List.Sorted fileLe (s1 ++ f :: s2) := by
      rw [← h1]
      exact List.sorted_insertionSort fileLe (l1' ++ f :: l2)
    obtain ⟨t1, t2, ht1, ht2⟩ := orderedInsert_decomp x f s1 s2 hsorted
    refine ⟨t1, t2, ?_, ?_⟩
    · simpa [List.insertionSort, h1] using ht1
    · simpa [List.insertionSort, h2] using ht2

/-- C8: a file whose read fails or whose trimmed content is empty is skipped:
removing it from the directory (at any position in the listing) leaves the
loader's output unchanged, so every other file's block is exactly as it would
be without that file, and the failure is not fatal. -/
theorem load_knowledge_skips_failed_file (f : MdFile) (hf : readDoc f = none)
    (l1 l2 : List MdFile) :
    load_knowledge (some (l1 ++ f :: l2)) = load_knowledge (some (l1 ++ l2)) := by
  obtain ⟨s1, s2, h1, h2⟩ := insertionSort_decomp f l1 l2
  rw [load_knowledge_some, load_knowledge_some, h1, h2,
    List.filterMap_append, List.filterMap_append, List.filterMap_cons, hf]

/-- Witness for C8: dropping an unreadable `b.md` between readable `a.md` and
`c.md` does not change the loader output. -/
theorem load_knowledge_skips_failed_file_witness :
    load_knowledge (some ([⟨"a", some "Alpha"⟩] ++ ⟨"b", none⟩ :: [⟨"c", some "Gamma"⟩]))
      = load_knowledge (some ([⟨"a", some "Alpha"⟩] ++ [⟨"c", some "Gamma"⟩])) :=
  load_knowledge_skips_failed_file ⟨"b", none⟩ (by decide)
    [⟨"a", some "Alpha"⟩] [⟨"c", some "Gamma"⟩]

/-! ### hooks.py -/

/-- The `call_metadata` dict built in `bot.run_bot`: both keys always present,
values `None` until the corresponding event fires (`dict.get` on a missing key
also yields `None`, so `Option` models both). -/
structure CallMetadata where
  connected_at : Option String
  disconnected_at : Option String
deriving DecidableEq, Repr

/-- The JSON payload built by `send_call_summary`. -/
structure CallSummaryPayload where
  event : String
  connected_at : Option String
  disconnected_at : Option String
deriving DecidableEq, Repr

/-- One outbound `session.post(...)` call: target URL, JSON body, and the
`ClientTimeout(total=...)` in seconds. -/
structure PostRequest where
  url : String
  json : CallSummaryPayload
  timeout_total : Nat
deriving DecidableEq, Repr

/-- What the network does with a POST: an HTTP response, or an exception
raised anywhere inside the `async with` block. -/
inductive HttpAttempt where
  | response (status : Nat) (body : String)
  | raised (msg : String)
deriving DecidableEq, Repr

/-- Effect trace of one `send_call_summary` invocation: the POSTs performed
and whether the coroutine returned normally (`ok`) or propagated an
exception (`error`). -/
structure NotifierRun where
  requests : List PostRequest
  outcome : Except String Unit

/-- `hooks.send_call_summary`. `n8n_call_hook_url` is the module-level
`N8N_CALL_HOOK_URL` (`os.getenv` default `""`, and `if not url` is the falsy
test, i.e. the empty string); `http_post` is the network oracle. Every branch
of the `try`/`except` returns normally after logging. -/
def send_call_summary (n8n_call_hook_url : String) (call_metadata : CallMetadata)
    (http_post : PostRequest → HttpAttempt) : NotifierRun :=
  if n8n_call_hook_url = "" then
    { requests := [], outcome := Except.ok () }
  else
    let payload : CallSummaryPayload :=
      { event := "call_ended"
        connected_at := call_metadata.connected_at
        disconnected_at := call_metadata.disconnected_at }
    let req : PostRequest :=
      { url := n8n_call_hook_url, json := payload, timeout_total := 10 }
    match http_post req with
    | HttpAttempt.response 200 _ => { requests := [req], outcome := Except.ok () }
    | HttpAttempt.response _ _ => { requests := [req], outcome := Except.ok () }
    | HttpAttempt.raised _ => { requests := [req], outcome := Except.ok () }

/-- C4: the notifier never raises to its caller — for every metadata value and
every network behaviour the run returns normally, and with no automation URL
configured (empty `N8N_CALL_HOOK_URL`) it performs zero network calls. -/
theorem send_call_summary_never_raises :
    ∀ (url : String) (call_metadata : CallMetadata) (http_post : PostRequest → HttpAttempt),
      (send_call_summary url call_metadata http_post).outcome = Except.ok () ∧
        (send_call_summary "" call_metadata http_post).requests = [] := by
  intro url call_metadata http_post
  constructor
  · unfold send_call_summary
    split
    · rfl
    · dsimp only
      split <;> rfl
  · rfl

/-- C6: with the automation URL configured, the notifier performs exactly one
POST, to that URL, whose JSON body is the three-field object
`event = "call_ended"` plus the two timestamps taken from the call metadata,
with the fixed 10-second total timeout. -/
theorem send_call_summary_single_post (url : String) (call_metadata : CallMetadata)
    (http_post : PostRequest → HttpAttempt) (h : url ≠ "") :
    (send_call_summary url call_metadata http_post).requests =
      [{ url := url
         json := { event := "call_ended"
                   connected_at := call_metadata.connected_at
                   disconnected_at := call_metadata.disconnected_at }
         timeout_total := 10 }] := by
  unfold send_call_summary
  rw [if_neg h]
  dsimp only
  split <;> rfl

/-- Witness for C6 at a concrete URL, metadata and network oracle. -/
theorem send_call_summary_single_post_witness :
    (send_call_summary "https://n8n.example.com/hook"
        ⟨some "2026-01-01T10:00:00+00:00", some "2026-01-01T10:05:00+00:00"⟩
        (fun _ => HttpAttempt.response 500 "boom")).requests =
      [{ url := "https://n8n.example.com/hook"
         json := { event := "call_ended"
                   connected_at := some "2026-01-01T10:00:00+00:00"
                   disconnected_at := some "2026-01-01T10:05:00+00:00" }
         timeout_total := 10 }] :=
  send_call_summary_single_post "https://n8n.example.com/hook"
    ⟨some "2026-01-01T10:00:00+00:00", some "2026-01-01T10:05:00+00:00"⟩
    (fun _ => HttpAttempt.response 500 "boom") (by decide)

/-! ### bot.py -/

/-- The five processors listed in the `Pipeline([...])` constructor call. -/
inductive PipelineStage where
  | transportInput
  | userAggregator
  | llmService
  | transportOutput
  | assistantAggregator
deriving DecidableEq, Repr

/-- `AGENT_RULES` up to and including the final `"YOUR KNOWLEDGE:\n"` line;
the template ends `"...KNOWLEDGE:\n"`, then the `knowledge` slot, then a
final newline, so `AGENT_RULES.format(knowledge=v)` is
`AGENT_RULES_header ++ v ++ "\n"`. -/
def AGENT_RULES_header : String :=
  "You are an AI voice assistant for Institute of Financial Studies (IFS), Jaipur.\n\nIMPORTANT RULES:\n- You are answering a live phone call. Keep responses brief (1-3 sentences).\n- Speak naturally like a helpful receptionist, not like a chatbot.\n- Respond in the SAME LANGUAGE the caller speaks (Hindi or English).\n- Only answer from the knowledge provided below. Never make up information.\n- If you don\x27t know something, say: \"I would be happy to connect you with our admissions team for more details. You can also reach us at our office number.\"\n- Do not use special characters, emojis, or markdown in your responses (output is converted to speech).\n- Be warm, professional, and helpful.\n- If the caller wants to speak to a human, say: \"I will let our team know. Someone will call you back shortly.\"\n\nYOUR KNOWLEDGE:\n"

/-- The value substituted into the template's knowledge slot:
`knowledge_context or "No knowledge documents loaded yet."` — Python `or`
takes the fallback exactly when `knowledge_context` is falsy, i.e. empty. -/
def knowledge_slot (knowledge_context : String) : String :=
  if knowledge_context = "" then "No knowledge documents loaded yet." else knowledge_context

/-- The `system_instruction` string handed to `GeminiLiveLLMService`. -/
def system_instruction (knowledge_context : String) : String :=
  AGENT_RULES_header ++ knowledge_slot knowledge_context ++ "\n"

/-- The session object `run_bot` assembles before handing it to the runner:
prompt, voice, seeded context, the pipeline stage list in constructor order,
and the `PipelineParams` flags. -/
structure BotSession where
  system_instruction : String
  voice_id : String
  initial_messages : List (String × String)
  pipeline : List PipelineStage
  enable_metrics : Bool
  enable_usage_metrics : Bool
deriving DecidableEq, Repr

/-- `bot.run_bot` (assembly part; the framework runner itself is external).
The default argument mirrors `knowledge_context: str = ""`. -/
def run_bot (knowledge_context : String := "") : BotSession :=
  { system_instruction := system_instruction knowledge_context
    voice_id := "Kore"
    initial_messages :=
      [("user", "A customer is calling IFS. Greet them warmly and ask how you can help.")]
    pipeline :=
      [PipelineStage.transportInput, PipelineStage.userAggregator, PipelineStage.llmService,
       PipelineStage.transportOutput, PipelineStage.assistantAggregator]
    enable_metrics := true
    enable_usage_metrics := true }

/-- C9: the assembled pipeline is always exactly the five stages in the fixed
order input transport, user aggregator, LLM service, output transport,
assistant aggregator, whatever the knowledge string. -/
theorem run_bot_pipeline_stages (knowledge_context : String) :
    (run_bot knowledge_context).pipeline =
      [PipelineStage.transportInput, PipelineStage.userAggregator, PipelineStage.llmService,
       PipelineStage.transportOutput, PipelineStage.assistantAggregator] := rfl

/-- C10: with an empty (or defaulted/absent) knowledge string the system
prompt substitutes the fixed fallback text into the knowledge slot, and the
substituted slot is never the empty string. -/
theorem run_bot_empty_knowledge_fallback :
    (run_bot "").system_instruction
        = AGENT_RULES_header ++ "No knowledge documents loaded yet." ++ "\n" ∧
      ∀ knowledge_context : String, knowledge_slot knowledge_context ≠ "" := by
  constructor
  · rfl
  · intro knowledge_context
    by_cases hk : knowledge_context = ""
    · subst hk
      decide
    · unfold knowledge_slot
      rw [if_neg hk]
      exact hk

/-- The observable steps of the `on_client_disconnected` handler, in program
order. -/
inductive BotAction where
  | recordDisconnectedAt (timestamp : String)
  | cancelPipelineTask
  | notifyCallSummary (call_metadata : CallMetadata)
deriving DecidableEq, Repr

/-- Effect trace of one `on_disconnected` invocation. -/
structure DisconnectRun where
  call_metadata : CallMetadata
  actions : List BotAction
  outcome : Except String Unit

/-- The `on_client_disconnected` handler of `bot.run_bot`: store the
disconnection timestamp into `call_metadata`, cancel the pipeline task, then
call `send_call_summary` with the accumulated metadata inside
`try`/`except` — both notifier outcomes leave the handler returning
normally. `notifier` abstracts the awaited `send_call_summary` coroutine
(`error` = it raised). -/
def on_disconnected (now_iso : String) (call_metadata : CallMetadata)
    (notifier : CallMetadata → Except String Unit) : DisconnectRun :=
  let meta : CallMetadata := { call_metadata with disconnected_at := some now_iso }
  { call_metadata := meta
    actions :=
      [BotAction.recordDisconnectedAt now_iso, BotAction.cancelPipelineTask,
       BotAction.notifyCallSummary meta]
    outcome :=
      match notifier meta with
      | Except.ok _ => Except.ok ()
      | Except.error _ => Except.ok () }

/-- C5: on every disconnect event the handler records the disconnection
timestamp into the call metadata, cancels the running pipeline task, and then
invokes the notifier with the accumulated metadata (original `connected_at`,
new `disconnected_at`); whatever the notifier does, no exception propagates
out of the handler. -/
theorem on_disconnected_behaviour (now_iso : String) (call_metadata : CallMetadata)
    (notifier : CallMetadata → Except String Unit) :
    (on_disconnected now_iso call_metadata notifier).actions =
        [BotAction.recordDisconnectedAt now_iso, BotAction.cancelPipelineTask,
         BotAction.notifyCallSummary
           { connected_at := call_metadata.connected_at
             disconnected_at := some now_iso }] ∧
      (on_disconnected now_iso call_metadata notifier).call_metadata.disconnected_at
          = some now_iso ∧
      (on_disconnected now_iso call_metadata notifier).outcome = Except.ok () := by
  refine ⟨rfl, rfl, ?_⟩
  unfold on_disconnected
  dsimp only
  split <;> rfl

/-! ### server.py -/

/-- The parsed `WhatsAppWebhookRequest` body; only the top-level `object` tag
is inspected by this repository's code. -/
structure WebhookBody where
  object : String
deriving DecidableEq, Repr

/-- A `SmallWebRTCConnection` handed to the acceptance callback. -/
structure WebRtcConnection where
  pc_id : String
deriving DecidableEq, Repr

/-- How `whatsapp_client.handle_webhook_request` terminates. -/
inductive ClientOutcome where
  | ok
  | valueError (msg : String)
  | unexpectedError (msg : String)
deriving DecidableEq, Repr

/-- Oracle for the opaque external client call: the connections it
auto-accepts (each invoking `connection_callback` once, paired with the state
the knowledge directory happens to be in at that callback's invocation
time), and how the call terminates. -/
structure ClientBehavior where
  accepted : List (WebRtcConnection × Option (List MdFile))
  outcome : ClientOutcome
deriving DecidableEq, Repr

/-- One `background_tasks.add_task(run_bot, connection, current_knowledge)`:
the connection and the knowledge string the bot session will receive. -/
structure ScheduledBot where
  connection : WebRtcConnection
  knowledge_context : String
deriving DecidableEq, Repr

/-- The HTTP response of the POST `/` endpoint: 200 `{"status": "success"}`
or an `HTTPException`. -/
inductive WebhookResponse where
  | success
  | httpError (status_code : Nat) (detail : String)
deriving DecidableEq, Repr

/-- Effect trace of one `handle_webhook` request. -/
structure WebhookRun where
  clientInvoked : Bool
  scheduled : List ScheduledBot
  response : WebhookResponse
deriving DecidableEq, Repr

/-- `server.handle_webhook` (POST `/`). `knowledge_context` is the process
global loaded at startup — the handler never reads it; instead it calls
`load_knowledge()` afresh on the webhook-time directory state
`fs_at_webhook` and the `connection_callback` closure captures that value,
ignoring the directory state at callback-invocation time. The callbacks run
inside the client call, so the bots scheduled before a late client failure
stay scheduled; the response mirrors the `try`/`except ValueError`/`except
Exception` ladder. -/
def handle_webhook (knowledge_context : String) (fs_at_webhook : Option (List MdFile))
    (body : WebhookBody) (client : ClientBehavior) : WebhookRun :=
  if body.object ≠ "whatsapp_business_account" then
    { clientInvoked := false
      scheduled := []
      response := WebhookResponse.httpError 400 "Invalid object type" }
  else
    let current_knowledge := load_knowledge fs_at_webhook
    let connection_callback : WebRtcConnection → Option (List MdFile) → ScheduledBot :=
      fun connection _fs_at_callback =>
        { connection := connection, knowledge_context := current_knowledge }
    { clientInvoked := true
      scheduled := client.accepted.map fun p => connection_callback p.1 p.2
      response :=
        match client.outcome with
        | ClientOutcome.ok => WebhookResponse.success
        | ClientOutcome.valueError msg => WebhookResponse.httpError 400 msg
        | ClientOutcome.unexpectedError _ => WebhookResponse.httpError 500 "Internal error" }

/-- C1: every bot session scheduled while handling an accepted call receives
exactly the knowledge string loaded during that webhook POST — independent of
the startup-time global and of whatever the knowledge directory contains when
the acceptance callback itself runs. -/
theorem webhook_bot_gets_webhook_time_knowledge (knowledge_context : String)
    (fs_at_webhook : Option (List MdFile)) (body : WebhookBody) (client : ClientBehavior)
    (hobj : body.object = "whatsapp_business_account") :
    ∀ b ∈ (handle_webhook knowledge_context fs_at_webhook body client).scheduled,
      b.knowledge_context = load_knowledge fs_at_webhook := by
  intro b hb
  unfold handle_webhook at hb
  rw [if_neg (not_not_intro hobj)] at hb
  dsimp only at hb
  obtain ⟨p, _, rfl⟩ := List.mem_map.mp hb
  rfl

/-- Witness for C1: with a stale startup global, a webhook-time directory
holding `campus.md`, and a callback-time directory that has been deleted, the
scheduled bot still gets the webhook-time load. -/
theorem webhook_bot_gets_webhook_time_knowledge_witness :
    (ScheduledBot.mk ⟨"pc-1"⟩ "--- CAMPUS ---\nCampus info.").knowledge_context
      = load_knowledge (some [⟨"campus", some "Campus info."⟩]) :=
  webhook_bot_gets_webhook_time_knowledge "STALE STARTUP KNOWLEDGE"
    (some [⟨"campus", some "Campus info."⟩])
    ⟨"whatsapp_business_account"⟩
    ⟨[(⟨"pc-1"⟩, none)], ClientOutcome.ok⟩
    rfl
    (ScheduledBot.mk ⟨"pc-1"⟩ "--- CAMPUS ---\nCampus info.")
    (by decide)

/-- C3: a webhook body whose `object` tag is not `"whatsapp_business_account"`
gets a 400 response, the external client's webhook handler is never called,
and no background bot task is scheduled. -/
theorem webhook_rejects_wrong_object (knowledge_context : String)
    (fs_at_webhook : Option (List MdFile)) (body : WebhookBody) (client : ClientBehavior)
    (h : body.object ≠ "whatsapp_business_account") :
    (handle_webhook knowledge_context fs_at_webhook body client).response
        = WebhookResponse.httpError 400 "Invalid object type" ∧
      (handle_webhook knowledge_context fs_at_webhook body client).clientInvoked = false ∧
      (handle_webhook knowledge_context fs_at_webhook body client).scheduled = [] := by
  unfold handle_webhook
  rw [if_pos h]
  exact ⟨rfl, rfl, rfl⟩

/-- Witness for C3 at a concrete mistyped body, with a client that would have
accepted a call had it been reached. -/
theorem webhook_rejects_wrong_object_witness :
    (handle_webhook "" none ⟨"page"⟩ ⟨[(⟨"pc-1"⟩, none)], ClientOutcome.ok⟩).response
        = WebhookResponse.httpError 400 "Invalid object type" ∧
      (handle_webhook "" none ⟨"page"⟩ ⟨[(⟨"pc-1"⟩, none)], ClientOutcome.ok⟩).clientInvoked
          = false ∧
      (handle_webhook "" none ⟨"page"⟩ ⟨[(⟨"pc-1"⟩, none)], ClientOutcome.ok⟩).scheduled = [] :=
  webhook_rejects_wrong_object "" none ⟨"page"⟩ ⟨[(⟨"pc-1"⟩, none)], ClientOutcome.ok⟩
    (by decide)

end IfsVoiceAgent
